import Mathlib

/-!
Verification development for the hpecp CLI (`bin/cli.py`).

The shallow embedding models each CLI operation as a pure function from its
arguments (and, where the operation consumes a remote API response, from that
response value) to a result record collecting the lines printed to stdout and
stderr and the exit code passed to `sys.exit` (`none` means the function
returned normally).  Python integers are modelled as `Int`, optional
parameters as `Option`, and Python truthiness of strings explicitly.

Components the claims need that are not part of `bin/cli.py` itself (the
generic resource proxy `BaseProxy.print_list` and the status-polling wait
primitive, which live in the `hpecp.cli.base` collaborator) are modelled from
the specification; those definitions say so in their doc comments.
-/

namespace HpecpCli

/-- Python `sep.join(xs)`: empty list gives the empty string, otherwise the
elements separated by `sep`.  (Defined by structural recursion so concrete
instances evaluate inside the kernel.) -/
def joinWith (sep : String) : List String → String
  | [] => ""
  | [x] => x
  | x :: y :: xs => x ++ sep ++ joinWith sep (y :: xs)

/-- Python `s.split(".")` at the character level: split into the (possibly
empty) groups between occurrences of `'.'`; the empty string gives one empty
group, as in Python. -/
def splitOnDot : List Char → List (List Char)
  | [] => [[]]
  | c :: rest =>
    match splitOnDot rest, decide (c = '.') with
    | r, true => [] :: r
    | [], false => [[c]]
    | g :: gs, false => (c :: g) :: gs

/-- Value of a nonempty digit string, `none` when empty or when any character
is not a decimal digit (Python `int` would raise `ValueError`). -/
def digitsToNat : List Char → Option Nat
  | [] => none
  | cs =>
    cs.foldl
      (fun acc c =>
        match acc with
        | none => none
        | some n => if c.isDigit then some (n * 10 + (c.toNat - 48)) else none)
      (some 0)

/-- Python `int(s)` on an optionally signed decimal string (whitespace and
underscore tolerance of Python `int` are not modelled; the inputs of interest
are plain version components). -/
def pyInt : List Char → Option Int
  | '-' :: rest => (digitsToNat rest).map (fun n => -(n : Int))
  | '+' :: rest => (digitsToNat rest).map (fun n => (n : Int))
  | cs => (digitsToNat cs).map (fun n => (n : Int))

/-- Result of one CLI operation: the lines printed to stdout and stderr, and
the code passed to `sys.exit` when the operation exits early (`none` means
the function returned normally). -/
structure CliResult where
  stdout : List String
  stderr : List String
  exitCode : Option Int
  deriving Repr, DecidableEq

/-- Embedding of `LockProxy.list` (cli.py lines 515-537).  The remote
response (`lock.get()`) is abstracted as a value of type `α` together with
the two renderers the source applies to it: `yamlRender` models
`yaml.dump(yaml.load(json.dumps(response)))` and `jsonRender` models
`json.dumps(response)`.  The source validates `output` before fetching the
response, so an invalid mode prints nothing to stdout. -/
def LockProxy.list {α : Type} (yamlRender jsonRender : α → String)
    (response : α) (output : String) : CliResult :=
  if output ∉ ["yaml", "json"] then
    ⟨[], ["'output' parameter must be 'yaml' or 'json'"], some 1⟩
  else if output = "yaml" then
    ⟨[yamlRender response], [], none⟩
  else
    ⟨[jsonRender response], [], none⟩

/-- Embedding of `LicenseProxy.list` (cli.py lines 576-599).  The remote
response (`license.list()`) is abstracted as `α` with the same two renderers;
`licenseKeys` models the comprehension
`[str(unicode(li["LicenseKey"])) for li in response["Licenses"]]`.
Note: the source performs no validation of `output`; every value other than
`"yaml"` takes the `json.dumps` branch. -/
def LicenseProxy.list {α : Type} (yamlRender jsonRender : α → String)
    (licenseKeys : α → List String) (response : α)
    (output : String) (license_key_only : Bool) : CliResult :=
  if license_key_only then
    ⟨[joinWith "\n" (licenseKeys response)], [], none⟩
  else if output = "yaml" then
    ⟨[yamlRender response], [], none⟩
  else
    ⟨[jsonRender response], [], none⟩

/-- Embedding of `(major, minor, patch) = v.split("."); int(major); ...`
(cli.py lines 355-358): `none` models the `ValueError` Python raises when the
string does not split into exactly three integer components. -/
def parse3 (v : String) : Option (Int × Int × Int) :=
  match splitOnDot v.toList with
  | [a, b, c] =>
    match pyInt a, pyInt b, pyInt c with
    | some x, some y, some z => some (x, y, z)
    | _, _, _ => none
  | _ => none

/-- Embedding of one disjunct of the filter condition in cli.py lines
359-363: `major_filter is not None and major != major_filter`. -/
def filterMismatch (f : Option Int) (x : Int) : Bool :=
  match f with
  | none => false
  | some y => x != y

/-- Python `repr` of a string as `print` shows it inside a list
(version strings contain no quotes to escape). -/
def pyStrRepr (s : String) : String := "'" ++ s ++ "'"

/-- Python `print` of a list of strings, e.g. `['1.17.0', '1.18.0']`. -/
def pyListRepr (xs : List String) : String :=
  "[" ++ joinWith ", " (xs.map pyStrRepr) ++ "]"

/-- Embedding of the version-collecting loop of
`K8sClusterProxy.k8s_supported_versions` (cli.py lines 353-366): walk the
server-returned versions in order, keep those passing the filters; `none`
models the uncaught `ValueError` when some version fails to parse. -/
def collectVers (mf mn pf : Option Int) : List String → Option (List String)
  | [] => some []
  | v :: rest =>
    match parse3 v with
    | none => none
    | some (ma, mi, pa) =>
      match collectVers mf mn pf rest with
      | none => none
      | some vs =>
        if filterMismatch mf ma || filterMismatch mn mi || filterMismatch pf pa
        then some vs
        else some (v :: vs)

/-- Result of `k8s_supported_versions`: as `CliResult`, plus a flag recording
that an uncaught Python exception escaped (the method is not wrapped by
`intercept_exception`). -/
structure VersionsResult where
  stdout : List String
  stderr : List String
  exitCode : Option Int
  raised : Bool
  deriving Repr, DecidableEq

/-- Embedding of `K8sClusterProxy.k8s_supported_versions` (cli.py lines
304-371).  The `output` mode is validated first (note the typo "ust" is the
source's own message text); the `isinstance(..., int)` checks always pass in
this model because the filters are `Option Int`; the truthiness-guarded
`int()` conversions are the identity on ints. -/
def k8s_supported_versions (serverVersions : List String) (output : String)
    (major_filter minor_filter patch_filter : Option Int) : VersionsResult :=
  if output ∉ ["json", "text"] then
    ⟨[], ["'output' parameter ust be 'json' or 'text'"], some 1, false⟩
  else
    match collectVers major_filter minor_filter patch_filter serverVersions with
    | none => ⟨[], [], none, true⟩
    | some vers =>
      if output = "json" then
        ⟨[pyListRepr vers], [], none, false⟩
      else
        ⟨[joinWith " " vers], [], none, false⟩

/-- Python truthiness of an optional string argument: `None` and the empty
string are falsy, every other string is truthy. -/
def pyTruthy : Option String → Bool
  | none => false
  | some s => s != ""

/-- The remote call made by `get_available_addons`: by cluster id or by
k8s version (the version argument is passed through unchanged, so it can be
`None`). -/
inductive AddonsApiCall where
  | byId (id : String)
  | byVersion (k8s_version : Option String)
  deriving Repr, DecidableEq

/-- Result of `get_available_addons`: stderr lines, exit code, and the remote
API call performed, if any. -/
structure AddonsResult where
  stderr : List String
  exitCode : Option Int
  apiCall : Option AddonsApiCall
  deriving Repr, DecidableEq

/-- The error message of `get_available_addons` (cli.py lines 253-254 and
260-261, the same text in both branches). -/
def eitherMsg : String := "Either 'id' or 'k8s_version' parameter must be provided"

/-- Embedding of `K8sClusterProxy.get_available_addons` (cli.py lines
246-273): error when both parameters are non-`None`, error when both are
`None`; otherwise branch on the Python truthiness of `id` (`if id:`), so a
provided-but-empty `id` falls through to the `k8s_version` branch. -/
def get_available_addons (id k8s_version : Option String) : AddonsResult :=
  if id.isSome && k8s_version.isSome then
    ⟨[eitherMsg], some 1, none⟩
  else if id.isNone && k8s_version.isNone then
    ⟨[eitherMsg], some 1, none⟩
  else if pyTruthy id then
    ⟨[], none, some (AddonsApiCall.byId (id.getD ""))⟩
  else
    ⟨[], none, some (AddonsApiCall.byVersion k8s_version)⟩

/-- Result of `add_addons`: stderr lines, exit code, whether the remote
`add_addons` API call was made, and whether `wait_for_status` was invoked. -/
structure AddAddonsResult where
  stderr : List String
  exitCode : Option Int
  apiAddAddonsCalled : Bool
  waitForStatusCalled : Bool
  deriving Repr, DecidableEq

/-- Embedding of `K8sClusterProxy.add_addons` (cli.py lines 275-298):
validate `id` and `addons`, make the remote call, then invoke
`wait_for_status` only when `wait_for_ready_sec > 0`. -/
def add_addons (id : Option String) (addons : Option (List String))
    (wait_for_ready_sec : Int) : AddAddonsResult :=
  if id.isNone then
    ⟨["'id' parameter must be provided."], some 1, false, false⟩
  else
    match addons with
    | none => ⟨["'addons' must be a list with at least one entry."], some 1, false, false⟩
    | some l =>
      if l.length < 1 then
        ⟨["'addons' must be a list with at least one entry."], some 1, false, false⟩
      else
        ⟨[], none, true, decide (0 < wait_for_ready_sec)⟩

/-- The Python exceptions distinguished by `intercept_exception`
(cli.py lines 76-115), each carrying its message text. -/
inductive PyExc where
  | systemExit (code : Int)
  | assertionError (msg : String)
  | apiUnknownException (msg : String)
  | apiException (msg : String)
  | apiItemNotFoundException (msg : String)
  | apiItemConflictException (msg : String)
  | apiForbiddenException (msg : String)
  | containerPlatformClientException (msg : String)
  | otherException (msg : String)
  deriving Repr, DecidableEq

/-- Outcome of the wrapped call: it returned normally or raised. -/
inductive CallOutcome where
  | ok
  | raises (e : PyExc)
  deriving Repr, DecidableEq

/-- What the decorator itself prints and how it exits (`none` = the wrapped
call's own return passes through).  The handler prints only to stderr. -/
structure HandledResult where
  stdout : List String
  stderr : List String
  exitCode : Option Int
  deriving Repr, DecidableEq

/-- Embedding of the `_unknown_exception_handler` inner function (cli.py
lines 80-94): message depends on the log level, exit code 1. -/
def unknownHandler (logDebug : Bool) : HandledResult :=
  if logDebug then
    ⟨[], ["Unknown error."], some 1⟩
  else
    ⟨[], ["Unknown error. To debug run with env var LOG_LEVEL=DEBUG"], some 1⟩

/-- Embedding of the `intercept_exception` decorator (cli.py lines 76-115):
`SystemExit` is re-raised with its code, `AssertionError` prints its text,
`APIUnknownException` and any unlisted exception go to the unknown handler,
and the five known API exceptions print `e.message` to stderr and exit 1. -/
def intercept_exception (logDebug : Bool) : CallOutcome → HandledResult
  | CallOutcome.ok => ⟨[], [], none⟩
  | CallOutcome.raises (PyExc.systemExit c) => ⟨[], [], some c⟩
  | CallOutcome.raises (PyExc.assertionError m) => ⟨[], [m], some 1⟩
  | CallOutcome.raises (PyExc.apiUnknownException _) => unknownHandler logDebug
  | CallOutcome.raises (PyExc.apiException m) => ⟨[], [m], some 1⟩
  | CallOutcome.raises (PyExc.apiItemNotFoundException m) => ⟨[], [m], some 1⟩
  | CallOutcome.raises (PyExc.apiItemConflictException m) => ⟨[], [m], some 1⟩
  | CallOutcome.raises (PyExc.apiForbiddenException m) => ⟨[], [m], some 1⟩
  | CallOutcome.raises (PyExc.containerPlatformClientException m) => ⟨[], [m], some 1⟩
  | CallOutcome.raises (PyExc.otherException _) => unknownHandler logDebug

/-- Caller-visible outcome of the Status Wait Primitive.  Modelled from the
spec: section 4.2 fixes exactly three outcomes, `ReachedTarget`,
`ObservedFailureStatus(status)` and `TimedOut`. -/
inductive WaitOutcome where
  | ReachedTarget
  | ObservedFailureStatus (status : String)
  | TimedOut
  deriving Repr, DecidableEq

/-- Modelled from the spec: the polling loop of the Status Wait Primitive
(section 4.2; the implementation, `BaseProxy.wait_for_status` and the client
polling loop under `hpecp/cli/base.py`, is not under `src/`).  `fetch j` is
the status returned by the (j+1)-th invocation of `status_of(id)`; fetches
happen one poll interval apart, so the elapsed time before fetch number `k`
(0-based) is `k * poll`.  Before each fetch the loop stops with `TimedOut`
when the elapsed time exceeds the timeout; otherwise it stops with
`ReachedTarget` on a status in the target set, with `ObservedFailureStatus`
on a status in the terminal-failure set, and polls again otherwise.  The
second component counts the fetches performed.  `fuel` bounds the recursion;
the wrapper below supplies enough fuel that it never runs out when the poll
interval is positive. -/
def waitLoop (fetch : Nat → String) (target failure : List String)
    (timeout poll : Nat) : Nat → Nat → WaitOutcome × Nat
  | k, 0 => (WaitOutcome.TimedOut, k)
  | k, fuel + 1 =>
    if timeout < k * poll then (WaitOutcome.TimedOut, k)
    else if fetch k ∈ target then (WaitOutcome.ReachedTarget, k + 1)
    else if fetch k ∈ failure then (WaitOutcome.ObservedFailureStatus (fetch k), k + 1)
    else waitLoop fetch target failure timeout poll (k + 1) fuel

/-- Modelled from the spec: the Status Wait Primitive (section 4.2).  A
timeout of zero or negative means "do not wait": zero fetches and an
immediate no-op success (section 4.2 edge case, mirroring the CLI's
`wait_for_ready_sec=0` convention).  Otherwise poll as in `waitLoop`. -/
def wait_for_status (fetch : Nat → String) (target failure : List String)
    (timeout_secs poll_interval_secs : Int) : WaitOutcome × Nat :=
  if timeout_secs ≤ 0 then (WaitOutcome.ReachedTarget, 0)
  else
    waitLoop fetch target failure timeout_secs.toNat poll_interval_secs.toNat 0
      (timeout_secs.toNat / poll_interval_secs.toNat + 2)

/-- Modelled from the spec: a Resource Record (section 3), an ordered mapping
from field name to value.  The spec allows scalar or nested values; the
claims settled here depend only on field presence and scalar equality, so
values are modelled as scalar strings. -/
abbrev Record := List (String × String)

/-- Modelled from the spec: a Column Selection (section 3), a set of field
names or the sentinel "ALL". -/
inductive ColumnSelection where
  | all
  | names (cs : List String)

/-- Modelled from the spec: the four output modes of the Generic Resource
Proxy (section 4.1). -/
inductive OutputMode where
  | table
  | text
  | json
  | jsonPP
  deriving Repr, DecidableEq

/-- Modelled from the spec: the error kinds surfaced by the Generic Resource
Proxy (section 7). -/
inductive ProxyError where
  | invalidArgument
  | invalidQuery
  deriving Repr, DecidableEq

/-- Modelled from the spec: a well-formed Query Expression (sections 3 and
4.1), a JMESPath-style filter or projection referencing one field: either
select the records whose field equals a value, or project the field out of
each record. -/
inductive Query where
  | filterEq (field : String) (value : String)
  | projectField (field : String)

/-- The field a Query Expression references. -/
def Query.field : Query → String
  | Query.filterEq f _ => f
  | Query.projectField f => f

/-- Modelled from the spec: applying a Query Expression to the raw Resource
List (section 4.1).  Evaluation is stateless; a record that lacks the
referenced field never matches a filter and contributes nothing to a
projection, so an expression over a field present in no record yields the
empty result rather than an error (the source query language's forgiving
semantics, spec sections 4.1 and 9). -/
def applyQuery : Query → List Record → List Record
  | Query.filterEq f v, recs =>
    recs.filter (fun r =>
      match r.lookup f with
      | some s => s == v
      | none => false)
  | Query.projectField f, recs =>
    recs.filterMap (fun r => (r.lookup f).map (fun s => [(f, s)]))

/-- Modelled from the spec: column selection (sections 3 and 4.1): "ALL" is a
no-op; otherwise a column name absent from every record is an error
(`InvalidArgument`), and each surviving record is restricted to the named
fields, in the selection's declared order. -/
def selectColumns : ColumnSelection → List Record → Except ProxyError (List Record)
  | ColumnSelection.all, recs => Except.ok recs
  | ColumnSelection.names cs, recs =>
    if cs.any (fun c => recs.all (fun r => (r.lookup c).isNone)) then
      Except.error ProxyError.invalidArgument
    else
      Except.ok (recs.map (fun r => cs.filterMap (fun c => (r.lookup c).map (fun v => (c, v)))))

/-- Modelled from the spec: the `json` rendering of one record (compact
object syntax). -/
def renderRecord (r : Record) : String :=
  "\x7b" ++ joinWith ", " (r.map (fun p => "\"" ++ p.1 ++ "\": \"" ++ p.2 ++ "\"")) ++ "\x7d"

/-- Modelled from the spec: compact single-line `json` serialization of a
Resource List; the empty list renders as `[]` (section 4.1). -/
def renderJson (recs : List Record) : String :=
  "[" ++ joinWith ", " (recs.map renderRecord) ++ "]"

/-- Modelled from the spec: the `text` rendering, one row of tab-joined
values per record, no header (section 4.1); the empty list renders nothing. -/
def renderText (recs : List Record) : List String :=
  recs.map (fun r => joinWith "\t" (r.map Prod.snd))

/-- Modelled from the spec: the `table` rendering, a header row of field
names then one row per record (section 4.1; fixed-width padding elided, the
claims do not depend on it); the empty list renders no data rows. -/
def renderTable (recs : List Record) : List String :=
  (match recs with
   | [] => []
   | r :: _ => [joinWith "  " (r.map Prod.fst)])
  ++ recs.map (fun r => joinWith "  " (r.map Prod.snd))

/-- Modelled from the spec: rendering a Resource List in one output mode as
the list of lines written to stdout (`json-pp` differs from `json` only in
indentation, elided here). -/
def render (mode : OutputMode) (recs : List Record) : List String :=
  match mode with
  | OutputMode.table => renderTable recs
  | OutputMode.text => renderText recs
  | OutputMode.json => [renderJson recs]
  | OutputMode.jsonPP => [renderJson recs]

/-- Modelled from the spec: the Generic Resource Proxy's list rendering
(`BaseProxy.print_list` under `hpecp/cli/base.py`, not under `src/`): the
query, when provided, is applied first against the raw records; column
selection then restricts the surviving records; the result is rendered in
the chosen mode.  An error produces no output lines. -/
def print_list (recs : List Record) (output : OutputMode)
    (columns : ColumnSelection) (query : Option Query) :
    Except ProxyError (List String) :=
  let queried :=
    match query with
    | none => recs
    | some q => applyQuery q recs
  match selectColumns columns queried with
  | Except.error e => Except.error e
  | Except.ok sel => Except.ok (render output sel)

/-- The filter on versions as claim C10 states it, from the spec side: keep a
version exactly when each provided filter equals the corresponding integer
component of the parsed version.  This definition follows the claim's words
and is compared against the source-derived `collectVers`. -/
def specMatches (mf mn pf : Option Int) (v : String) : Bool :=
  match parse3 v with
  | some (ma, mi, pa) =>
    (match mf with | none => true | some x => ma == x)
      && (match mn with | none => true | some x => mi == x)
      && (match pf with | none => true | some x => pa == x)
  | none => false

end HpecpCli

open HpecpCli

/-- On a version that parses, the claim-side predicate `specMatches` agrees
with the negation of the source's mismatch condition. -/
theorem specMatches_eq_keep (mf mn pf : Option Int) (v : String)
    (ma mi pa : Int) (hp : parse3 v = some (ma, mi, pa)) :
    specMatches mf mn pf v
      = !(filterMismatch mf ma || filterMismatch mn mi || filterMismatch pf pa) := by
  simp only [specMatches, hp, filterMismatch]
  cases mf <;> cases mn <;> cases pf <;> simp [bne]

/-- The version-collecting loop keeps exactly the versions satisfying the
claim-side predicate, in the server-returned order, whenever all versions
parse. -/
theorem collectVers_eq_filter (mf mn pf : Option Int) (vs : List String)
    (h : ∀ v ∈ vs, (parse3 v).isSome) :
    collectVers mf mn pf vs = some (vs.filter (specMatches mf mn pf)) := by
  induction vs with
  | nil => rfl
  | cons v rest ih =>
    have hv : (parse3 v).isSome := h v (by simp)
    obtain ⟨trip, hp⟩ := Option.isSome_iff_exists.mp hv
    obtain ⟨ma, mi, pa⟩ := trip
    have hrest := ih (fun w hw => h w (by simp [hw]))
    rw [List.filter_cons, specMatches_eq_keep mf mn pf v ma mi pa hp]
    simp only [collectVers, hp, hrest]
    by_cases hkeep :
        (filterMismatch mf ma || filterMismatch mn mi || filterMismatch pf pa) = true
    · rw [if_pos hkeep, hkeep]
      simp
    · rw [if_neg hkeep]
      simp only [Bool.not_eq_true] at hkeep
      rw [hkeep]
      simp

/-- One step of the polling loop never runs past the first target status:
when fetch number `k` (0-based) is the first in the target set, no earlier
status is terminal, and fetch `k` still happens within the timeout budget,
the loop reports `ReachedTarget` after exactly `k + 1` fetches. -/
theorem waitLoop_reached (fetch : Nat → String) (target failure : List String)
    (timeout poll : Nat) (k : Nat)
    (hk : fetch k ∈ target)
    (hprev : ∀ j, j < k → fetch j ∉ target ∧ fetch j ∉ failure)
    (hbudget : k * poll ≤ timeout) :
    ∀ fuel start, start ≤ k → k - start < fuel →
      waitLoop fetch target failure timeout poll start fuel
        = (WaitOutcome.ReachedTarget, k + 1) := by
  intro fuel
  induction fuel with
  | zero => intro start _ hf; omega
  | succ fuel ih =>
    intro start hsk hf
    simp only [waitLoop]
    rw [if_neg (by
      have : start * poll ≤ k * poll := Nat.mul_le_mul_right poll hsk
      omega)]
    rcases Nat.lt_or_ge start k with hlt | hge
    · have hs := hprev start hlt
      rw [if_neg hs.1, if_neg hs.2]
      exact ih (start + 1) hlt (by omega)
    · have hek : start = k := le_antisymm hsk hge
      subst hek
      rw [if_pos hk]

/-- Companion to `waitLoop_reached` for the terminal-failure set: when fetch
number `k` is the first status in the failure set (and not in the target
set), the loop reports `ObservedFailureStatus` after exactly `k + 1`
fetches. -/
theorem waitLoop_failure (fetch : Nat → String) (target failure : List String)
    (timeout poll : Nat) (k : Nat)
    (hkt : fetch k ∉ target) (hkf : fetch k ∈ failure)
    (hprev : ∀ j, j < k → fetch j ∉ target ∧ fetch j ∉ failure)
    (hbudget : k * poll ≤ timeout) :
    ∀ fuel start, start ≤ k → k - start < fuel →
      waitLoop fetch target failure timeout poll start fuel
        = (WaitOutcome.ObservedFailureStatus (fetch k), k + 1) := by
  intro fuel
  induction fuel with
  | zero => intro start _ hf; omega
  | succ fuel ih =>
    intro start hsk hf
    simp only [waitLoop]
    rw [if_neg (by
      have : start * poll ≤ k * poll := Nat.mul_le_mul_right poll hsk
      omega)]
    rcases Nat.lt_or_ge start k with hlt | hge
    · have hs := hprev start hlt
      rw [if_neg hs.1, if_neg hs.2]
      exact ih (start + 1) hlt (by omega)
    · have hek : start = k := le_antisymm hsk hge
      subst hek
      rw [if_neg hkt, if_pos hkf]

/-- When no status fetched within the timeout budget is in the target or
failure set, the loop can only end in `TimedOut`. -/
theorem waitLoop_timedOut (fetch : Nat → String) (target failure : List String)
    (timeout poll : Nat)
    (h : ∀ j, j * poll ≤ timeout → fetch j ∉ target ∧ fetch j ∉ failure) :
    ∀ fuel start,
      (waitLoop fetch target failure timeout poll start fuel).1
        = WaitOutcome.TimedOut := by
  intro fuel
  induction fuel with
  | zero => intro start; rfl
  | succ fuel ih =>
    intro start
    simp only [waitLoop]
    rcases Nat.lt_or_ge timeout (start * poll) with hlt | hge
    · rw [if_pos hlt]
    · have hs := h start hge
      rw [if_neg (by omega), if_neg hs.1, if_neg hs.2]
      exact ih (start + 1)

/-- C1 (amended): each operation is judged against its own accepted set of
modes.  An `output` mode outside its accepted set makes `LockProxy.list`
(accepted set: "yaml", "json") and `K8sClusterProxy.k8s_supported_versions`
(accepted set: "json", "text") print an error message to stderr, exit with
code 1, and print no resource output; but `LicenseProxy.list` (with
`license_key_only` false) performs no validation of `output`: any mode other
than "yaml", unknown modes included, renders the response with `json.dumps`
to stdout and returns normally. -/
theorem unknown_output_mode_list_ops {α : Type} (yamlRender jsonRender : α → String)
    (licenseKeys : α → List String) (response : α)
    (lockOutput versOutput licOutput : String)
    (serverVersions : List String) (mf mn pf : Option Int)
    (h1 : lockOutput ∉ ["yaml", "json"])
    (h2 : versOutput ∉ ["json", "text"])
    (h3 : licOutput ≠ "yaml") :
    LockProxy.list yamlRender jsonRender response lockOutput
        = ⟨[], ["'output' parameter must be 'yaml' or 'json'"], some 1⟩
      ∧ k8s_supported_versions serverVersions versOutput mf mn pf
        = ⟨[], ["'output' parameter ust be 'json' or 'text'"], some 1, false⟩
      ∧ LicenseProxy.list yamlRender jsonRender licenseKeys response licOutput false
        = ⟨[jsonRender response], [], none⟩ := by
  refine ⟨?_, ?_, ?_⟩
  · simp only [HpecpCli.LockProxy.list]
    rw [if_pos h1]
  · simp only [k8s_supported_versions]
    rw [if_pos h2]
  · simp only [HpecpCli.LicenseProxy.list]
    rw [if_neg (by simp), if_neg h3]

/-- C1 witness: the amended statement with each operation at a mode outside
its own accepted set — "text" is rejected by `LockProxy.list`, "yaml" is
rejected by `k8s_supported_versions`, and the unknown mode "bogus" is
rendered as json by `LicenseProxy.list`. -/
theorem unknown_output_mode_list_ops_witness :
    LockProxy.list (α := String) (fun r => "yaml-of " ++ r) (fun r => "json-of " ++ r)
        "RESPONSE" "text"
        = ⟨[], ["'output' parameter must be 'yaml' or 'json'"], some 1⟩
      ∧ k8s_supported_versions ["1.17.0"] "yaml" none none none
        = ⟨[], ["'output' parameter ust be 'json' or 'text'"], some 1, false⟩
      ∧ LicenseProxy.list (α := String) (fun r => "yaml-of " ++ r)
          (fun r => "json-of " ++ r) (fun _ => []) "RESPONSE" "bogus" false
        = ⟨["json-of RESPONSE"], [], none⟩ :=
  unknown_output_mode_list_ops (fun r => "yaml-of " ++ r) (fun r => "json-of " ++ r)
    (fun _ => []) "RESPONSE" "text" "yaml" "bogus" ["1.17.0"] none none none
    (by decide) (by decide) (by decide)

/-- C1 counterexample: `LicenseProxy.list` with the unknown output mode
"bogus" (outside its accepted set, "yaml" or "json") does not fail: it prints
the `json.dumps` rendering of the resource response to stdout, prints nothing
to stderr, and returns normally — contradicting the claim that every list
operation fails with `InvalidArgument` and prints no resource output on an
unknown mode. -/
theorem license_list_unknown_output_prints :
    "bogus" ∉ ["yaml", "json"]
      ∧ LicenseProxy.list (α := String) (fun r => "yaml-of " ++ r)
          (fun r => "json-of " ++ r) (fun _ => []) "RESPONSE" "bogus" false
        = ⟨["json-of RESPONSE"], [], none⟩ :=
  ⟨by decide, by rfl⟩

/-- C2: a timeout of zero or negative means "do not wait": the wait primitive
performs zero fetches and returns success immediately, and
`K8sClusterProxy.add_addons` with that `wait_for_ready_sec` never invokes
`wait_for_status`, whatever its other arguments. -/
theorem wait_zero_timeout_is_noop (fetch : Nat → String)
    (target failure : List String) (timeout_secs poll_secs : Int)
    (id : Option String) (addons : Option (List String))
    (hT : timeout_secs ≤ 0) :
    wait_for_status fetch target failure timeout_secs poll_secs
        = (WaitOutcome.ReachedTarget, 0)
      ∧ (add_addons id addons timeout_secs).waitForStatusCalled = false := by
  constructor
  · simp only [wait_for_status, if_pos hT]
  · cases id with
    | none => rfl
    | some s =>
      cases addons with
      | none => rfl
      | some l =>
        cases l with
        | nil => rfl
        | cons a as =>
          have h1 : ¬((a :: as).length < 1) := by simp
          simp only [add_addons, Option.isNone_some, Bool.false_eq_true, if_false,
            if_neg h1]
          exact decide_eq_false (by omega)

/-- C2 witness: the theorem at timeout 0 with a concrete fetch and cluster. -/
theorem wait_zero_timeout_is_noop_witness :
    wait_for_status (fun _ => "pending") ["ready"] ["failed"] 0 5
        = (WaitOutcome.ReachedTarget, 0)
      ∧ (add_addons (some "c1") (some ["istio"]) 0).waitForStatusCalled = false :=
  wait_zero_timeout_is_noop (fun _ => "pending") ["ready"] ["failed"] 0 5
    (some "c1") (some ["istio"]) (by decide)

/-- C3: when fetch number `k` (0-based, so the (k+1)-th fetch) is the first
status in the terminal-failure set, no earlier status is in the target or
failure set, and that fetch happens within the timeout budget, the wait
primitive returns `ObservedFailureStatus` of that status after exactly
`k + 1` fetches and performs no further fetch. -/
theorem wait_stops_on_failure_status (fetch : Nat → String)
    (target failure : List String) (timeout_secs poll_secs : Int) (k : Nat)
    (hT : 0 < timeout_secs) (hp : 0 < poll_secs)
    (hkt : fetch k ∉ target) (hkf : fetch k ∈ failure)
    (hprev : ∀ j, j < k → fetch j ∉ target ∧ fetch j ∉ failure)
    (hbudget : k * poll_secs.toNat ≤ timeout_secs.toNat) :
    wait_for_status fetch target failure timeout_secs poll_secs
      = (WaitOutcome.ObservedFailureStatus (fetch k), k + 1) := by
  rw [wait_for_status, if_neg (by omega)]
  apply waitLoop_failure fetch target failure _ _ k hkt hkf hprev hbudget
  · omega
  · have hp' : 0 < poll_secs.toNat := by omega
    have : k ≤ timeout_secs.toNat / poll_secs.toNat :=
      (Nat.le_div_iff_mul_le hp').mpr hbudget
    omega

/-- C3 witness: the status sequence ["pending", "failed"] with
terminal-failure set containing "failed" yields
`ObservedFailureStatus "failed"` after exactly 2 fetches. -/
theorem wait_stops_on_failure_status_witness :
    wait_for_status (fun j => if j = 0 then "pending" else "failed")
        ["ready"] ["failed"] 60 5
      = (WaitOutcome.ObservedFailureStatus
          ((fun j => if j = 0 then "pending" else "failed") 1), 2) :=
  wait_stops_on_failure_status (fun j => if j = 0 then "pending" else "failed")
    ["ready"] ["failed"] 60 5 1 (by decide) (by decide) (by decide) (by decide)
    (by decide) (by decide)

/-- C4: the wait primitive returns `ReachedTarget` at the first fetch whose
status is in the target set, having performed exactly that many fetches
(fetch number `k` is 0-based, so exactly `k + 1` fetches happen). -/
theorem wait_reaches_target_at_first_match (fetch : Nat → String)
    (target failure : List String) (timeout_secs poll_secs : Int) (k : Nat)
    (hT : 0 < timeout_secs) (hp : 0 < poll_secs)
    (hk : fetch k ∈ target)
    (hprev : ∀ j, j < k → fetch j ∉ target ∧ fetch j ∉ failure)
    (hbudget : k * poll_secs.toNat ≤ timeout_secs.toNat) :
    wait_for_status fetch target failure timeout_secs poll_secs
      = (WaitOutcome.ReachedTarget, k + 1) := by
  rw [wait_for_status, if_neg (by omega)]
  apply waitLoop_reached fetch target failure _ _ k hk hprev hbudget
  · omega
  · have hp' : 0 < poll_secs.toNat := by omega
    have : k ≤ timeout_secs.toNat / poll_secs.toNat :=
      (Nat.le_div_iff_mul_le hp').mpr hbudget
    omega

/-- C4 witness: the status sequence ["pending", "pending", "ready"] with
target set containing "ready" yields `ReachedTarget` after exactly
3 fetches. -/
theorem wait_reaches_target_at_first_match_witness :
    wait_for_status (fun j => if j < 2 then "pending" else "ready")
        ["ready"] ["failed"] 60 5
      = (WaitOutcome.ReachedTarget, 3) :=
  wait_reaches_target_at_first_match (fun j => if j < 2 then "pending" else "ready")
    ["ready"] ["failed"] 60 5 2 (by decide) (by decide) (by decide)
    (by decide) (by decide)

/-- C5: with a positive timeout, when no status fetched within the timeout
budget is in the target or terminal-failure set, the wait primitive returns
`TimedOut`. -/
theorem wait_times_out (fetch : Nat → String) (target failure : List String)
    (timeout_secs poll_secs : Int)
    (hT : 0 < timeout_secs)
    (h : ∀ j : Nat, j * poll_secs.toNat ≤ timeout_secs.toNat →
      fetch j ∉ target ∧ fetch j ∉ failure) :
    (wait_for_status fetch target failure timeout_secs poll_secs).1
      = WaitOutcome.TimedOut := by
  rw [wait_for_status, if_neg (by omega)]
  exact waitLoop_timedOut fetch target failure _ _ h _ _

/-- C5 witness: a fetch that always returns "pending" with timeout 8 shorter
than two poll intervals of 5 yields `TimedOut`. -/
theorem wait_times_out_witness :
    (wait_for_status (fun _ => "pending") ["ready"] ["failed"] 8 5).1
      = WaitOutcome.TimedOut :=
  wait_times_out (fun _ => "pending") ["ready"] ["failed"] 8 5 (by decide)
    (fun j _ => ⟨by simp, by simp⟩)

/-- C6: a `columns` selection containing a field name absent from every
record makes the Generic Resource Proxy's list rendering fail with
`InvalidArgument`; the unknown column is never silently rendered. -/
theorem unknown_column_rejected (recs : List Record) (cs : List String)
    (c : String) (mode : OutputMode)
    (hc : c ∈ cs) (habs : ∀ r ∈ recs, r.lookup c = none) :
    print_list recs mode (ColumnSelection.names cs) none
      = Except.error ProxyError.invalidArgument := by
  have hany : cs.any (fun c => recs.all (fun r => (r.lookup c).isNone)) = true :=
    List.any_eq_true.mpr ⟨c, hc,
      List.all_eq_true.mpr (fun r hr => by simp [habs r hr])⟩
  simp only [print_list, selectColumns, if_pos hany]

/-- C6 witness: selecting the column "bogus" over a one-record list that has
only a "name" field fails with `InvalidArgument`. -/
theorem unknown_column_rejected_witness :
    print_list [[("name", "c1")]] OutputMode.table
        (ColumnSelection.names ["bogus"]) none
      = Except.error ProxyError.invalidArgument :=
  unknown_column_rejected [[("name", "c1")]] ["bogus"] "bogus" OutputMode.table
    (by decide) (by decide)

/-- C7: a well-formed Query Expression referencing a field present in no
record yields the empty result rather than an error, and the subsequent
rendering equals the empty-list rendering of the chosen output mode. -/
theorem missing_field_query_empty (recs : List Record) (q : Query)
    (mode : OutputMode)
    (habs : ∀ r ∈ recs, r.lookup q.field = none) :
    applyQuery q recs = []
      ∧ print_list recs mode ColumnSelection.all (some q)
        = print_list [] mode ColumnSelection.all none := by
  have hempty : applyQuery q recs = [] := by
    cases q with
    | filterEq f v =>
      apply List.filter_eq_nil_iff.mpr
      intro r hr
      have hl := habs r hr
      simp only [Query.field] at hl
      simp [applyQuery, hl]
    | projectField f =>
      apply List.filterMap_eq_nil_iff.mpr
      intro r hr
      have hl := habs r hr
      simp only [Query.field] at hl
      simp [hl]
  refine ⟨hempty, ?_⟩
  simp only [print_list, hempty]

/-- C7 witness: a filter on the field "zzz", absent from the one record of
the list, yields the empty result and the empty-list `json` rendering. -/
theorem missing_field_query_empty_witness :
    applyQuery (Query.filterEq "zzz" "x") [[("a", "1")]] = []
      ∧ print_list [[("a", "1")]] OutputMode.json ColumnSelection.all
          (some (Query.filterEq "zzz" "x"))
        = print_list [] OutputMode.json ColumnSelection.all none :=
  missing_field_query_empty [[("a", "1")]] (Query.filterEq "zzz" "x")
    OutputMode.json (by decide)

/-- C8: when the wrapped call raises one of the five known API exceptions,
`intercept_exception` prints exactly one stderr line, the exception's
message, exits with code 1, and prints nothing to stdout. -/
theorem intercept_known_api_exception (logDebug : Bool) (m : String) (e : PyExc)
    (h : e = PyExc.apiException m ∨ e = PyExc.apiItemNotFoundException m
      ∨ e = PyExc.apiItemConflictException m ∨ e = PyExc.apiForbiddenException m
      ∨ e = PyExc.containerPlatformClientException m) :
    intercept_exception logDebug (CallOutcome.raises e) = ⟨[], [m], some 1⟩ := by
  rcases h with h | h | h | h | h <;> subst h <;> rfl

/-- C8 witness: an `APIException` with a concrete message. -/
theorem intercept_known_api_exception_witness :
    intercept_exception false
        (CallOutcome.raises (PyExc.apiException "cluster not found"))
      = ⟨[], ["cluster not found"], some 1⟩ :=
  intercept_known_api_exception false "cluster not found"
    (PyExc.apiException "cluster not found") (Or.inl rfl)

/-- C9 counterexample: with `id` provided as the empty string (a provided
parameter, but Python-falsy) and `k8s_version` absent, exactly one parameter
is provided, yet `get_available_addons` neither errors nor fetches by `id`:
it performs the remote call with `k8s_version=None`. -/
theorem get_available_addons_empty_id_misroutes :
    (some "" : Option String).isSome = true
      ∧ get_available_addons (some "") none
        = ⟨[], none, some (AddonsApiCall.byVersion none)⟩
      ∧ (get_available_addons (some "") none).apiCall
          ≠ some (AddonsApiCall.byId "") :=
  ⟨rfl, by decide, by decide⟩

/-- C9 (amended): `get_available_addons` requires exactly one of `id` and
`k8s_version`: when both are provided or neither is, it prints an error to
stderr and exits with code 1 without any remote call; when exactly one is
provided it fetches using that parameter — except that a provided `id` equal
to the empty string (Python-falsy) with `k8s_version` absent leads to a fetch
with `k8s_version=None` instead of by `id`. -/
theorem get_available_addons_exactly_one (id k8s_version : Option String) :
    (id.isSome = true → k8s_version.isSome = true →
      get_available_addons id k8s_version = ⟨[eitherMsg], some 1, none⟩)
    ∧ (id = none → k8s_version = none →
      get_available_addons id k8s_version = ⟨[eitherMsg], some 1, none⟩)
    ∧ (∀ s, id = some s → s ≠ "" → k8s_version = none →
      get_available_addons id k8s_version
        = ⟨[], none, some (AddonsApiCall.byId s)⟩)
    ∧ (∀ v, id = none → k8s_version = some v →
      get_available_addons id k8s_version
        = ⟨[], none, some (AddonsApiCall.byVersion (some v))⟩)
    ∧ (id = some "" → k8s_version = none →
      get_available_addons id k8s_version
        = ⟨[], none, some (AddonsApiCall.byVersion none)⟩) := by
  cases id with
  | none =>
    cases k8s_version with
    | none =>
      exact ⟨by simp, fun _ _ => rfl, by simp, by simp, by simp⟩
    | some v =>
      refine ⟨by simp, by simp, by simp, ?_, by simp⟩
      intro w _ hw
      injection hw with hvw
      subst hvw
      rfl
  | some s =>
    cases k8s_version with
    | none =>
      refine ⟨by simp, by simp, ?_, by simp, ?_⟩
      · intro t ht hne _
        injection ht with hst
        subst hst
        have htr : pyTruthy (some s) = true := by
          simp [pyTruthy, hne]
        simp [get_available_addons, htr]
      · intro hid _
        injection hid with hs
        subst hs
        rfl
    | some v =>
      refine ⟨fun _ _ => rfl, by simp, ?_, by simp, by simp⟩
      intro t _ _ hkv
      exact absurd hkv (by simp)

/-- C9 witness: a nonempty `id` alone routes the remote call by `id`. -/
theorem get_available_addons_exactly_one_witness :
    get_available_addons (some "cluster1") none
      = ⟨[], none, some (AddonsApiCall.byId "cluster1")⟩ :=
  (get_available_addons_exactly_one (some "cluster1") none).2.2.1
    "cluster1" rfl (by decide) rfl

/-- C10: when every server-returned version is of the form
"major.minor.patch", `k8s_supported_versions` outputs exactly the versions
each of whose components equals every provided filter, in the
server-returned order: space-joined on one line for output "text", and as a
single Python list value for output "json". -/
theorem k8s_supported_versions_filters (serverVersions : List String)
    (mf mn pf : Option Int)
    (h : ∀ v ∈ serverVersions, (parse3 v).isSome) :
    k8s_supported_versions serverVersions "json" mf mn pf
        = ⟨[pyListRepr (serverVersions.filter (specMatches mf mn pf))],
            [], none, false⟩
      ∧ k8s_supported_versions serverVersions "text" mf mn pf
        = ⟨[joinWith " " (serverVersions.filter (specMatches mf mn pf))],
            [], none, false⟩ := by
  have hc := collectVers_eq_filter mf mn pf serverVersions h
  constructor
  · simp only [k8s_supported_versions, hc]
    rw [if_neg (by decide)]
    rw [if_pos (by decide)]
  · simp only [k8s_supported_versions, hc]
    rw [if_neg (by decide)]
    rw [if_neg (by decide)]

/-- C10 witness: the theorem at a concrete server list and filters
major=1, minor=17. -/
theorem k8s_supported_versions_filters_witness :
    k8s_supported_versions ["1.17.0", "1.18.3", "2.17.1"] "json"
        (some 1) (some 17) none
        = ⟨[pyListRepr (["1.17.0", "1.18.3", "2.17.1"].filter
              (specMatches (some 1) (some 17) none))], [], none, false⟩
      ∧ k8s_supported_versions ["1.17.0", "1.18.3", "2.17.1"] "text"
          (some 1) (some 17) none
        = ⟨[joinWith " " (["1.17.0", "1.18.3", "2.17.1"].filter
              (specMatches (some 1) (some 17) none))], [], none, false⟩ :=
  k8s_supported_versions_filters ["1.17.0", "1.18.3", "2.17.1"]
    (some 1) (some 17) none (by decide)
